import Mathlib

/-!
Shallow embedding of the buisbot context-assembly core:
the message store and retrieval engine (src/database.py), the prompt
formatter (src/utils.py), and the orchestrator steps that feed them
(src/bot.py, src/ai_service.py).  SQLite rows are modelled as a list of
records carrying the auto-increment id; SQL SELECT / UPDATE statements
become pure list operations; Python datetimes become a structured
six-field value serialized to / parsed from the canonical ISO-8601
seconds-resolution form.
-/

namespace Buisbot

/-- Importance tag, from class MessageImportance in src/database.py:
GEMINI = "Gemini", IMPORTANT = "Important", DEFAULT = "None". -/
inductive MessageImportance
  | GEMINI
  | IMPORTANT
  | DEFAULT
deriving DecidableEq, Repr

/-- String stored in the database for each importance tag
(the .value of the Python enum). -/
def MessageImportance.value : MessageImportance → String
  | .GEMINI => "Gemini"
  | .IMPORTANT => "Important"
  | .DEFAULT => "None"

/-- Structured timestamp standing for a Python datetime at seconds
resolution (the resolution of Telegram message dates stored by the bot). -/
structure PyDateTime where
  year : Nat
  month : Nat
  day : Nat
  hour : Nat
  minute : Nat
  second : Nat
deriving DecidableEq, Repr

/-- Zero-padding to two digits, as produced by datetime.isoformat and
strftime fields %m %d %H %M %S. -/
def pad2 (n : Nat) : String :=
  if n < 10 then "0" ++ toString n else toString n

/-- Zero-padding to four digits, as produced by strftime %Y. -/
def pad4 (n : Nat) : String :=
  if n < 10 then "000" ++ toString n
  else if n < 100 then "00" ++ toString n
  else if n < 1000 then "0" ++ toString n
  else toString n

/-- Serialization datetime.isoformat() for a seconds-resolution value:
YYYY-MM-DDTHH:MM:SS.  Used by Database.store_message (src/database.py
line 77) which stores date.isoformat(). -/
def PyDateTime.isoformat (d : PyDateTime) : String :=
  pad4 d.year ++ "-" ++ pad2 d.month ++ "-" ++ pad2 d.day ++ "T" ++
    pad2 d.hour ++ ":" ++ pad2 d.minute ++ ":" ++ pad2 d.second

/-- Rendering strftime "%Y-%m-%d %H:%M:%S" used by format_chat_history
(src/utils.py line 73). -/
def PyDateTime.strftimeDisplay (d : PyDateTime) : String :=
  pad4 d.year ++ "-" ++ pad2 d.month ++ "-" ++ pad2 d.day ++ " " ++
    pad2 d.hour ++ ":" ++ pad2 d.minute ++ ":" ++ pad2 d.second

/-- Splitting a character list on a separator character (helper for the
ISO-8601 parser below); mirrors str.split semantics. -/
def splitOnChar (sep : Char) : List Char → List (List Char)
  | [] => [[]]
  | c :: rest =>
    let r := splitOnChar sep rest
    if c == sep then [] :: r
    else
      match r with
      | g :: gs => (c :: g) :: gs
      | [] => [[c]]

/-- Parsing a non-empty all-digit character list to a number; none on
empty input or any non-digit character. -/
def digitsToNat : List Char → Option Nat
  | [] => none
  | cs => cs.foldl
      (fun acc c =>
        acc.bind (fun n => if c.isDigit then some (n * 10 + (c.toNat - 48)) else none))
      (some 0)

/-- Parser modelling datetime.fromisoformat (src/utils.py line 72) on the
canonical seconds-resolution form YYYY-MM-DDTHH:MM:SS that
Database.store_message writes; any other shape yields none (Python would
raise ValueError). -/
def fromisoformat (s : String) : Option PyDateTime :=
  match splitOnChar 'T' s.data with
  | [datePart, timePart] =>
    match splitOnChar '-' datePart, splitOnChar ':' timePart with
    | [y, mo, d], [h, mi, se] =>
      match digitsToNat y, digitsToNat mo, digitsToNat d,
            digitsToNat h, digitsToNat mi, digitsToNat se with
      | some yn, some mon, some dn, some hn, some min, some sen =>
        some ⟨yn, mon, dn, hn, min, sen⟩
      | _, _, _, _, _, _ => none
    | _, _ => none
  | _ => none

/-- One row of the messages table (src/database.py lines 27-38):
id INTEGER PRIMARY KEY AUTOINCREMENT, chat_id, message_id, author, date,
content, tags, important. -/
structure Row where
  id : Nat
  chat_id : Int
  message_id : Nat
  author : String
  date : String
  content : String
  tags : String
  important : String
deriving DecidableEq, Repr

/-- Projection selected by the two queries in Database.get_last_messages:
SELECT message_id, author, date, content, tags, important. -/
structure ResultRow where
  message_id : Nat
  author : String
  date : String
  content : String
  tags : String
  important : String
deriving DecidableEq, Repr

/-- Column projection applied by the SELECT column list of
get_last_messages. -/
def Row.project (r : Row) : ResultRow :=
  ⟨r.message_id, r.author, r.date, r.content, r.tags, r.important⟩

/-- Database state: the messages table plus the AUTOINCREMENT counter
(next id to assign, strictly greater than every assigned id). -/
structure DB where
  messages : List Row
  nextId : Nat
deriving DecidableEq, Repr

/-- Database.store_message (src/database.py lines 67-79): INSERT of one
new row; the auto-increment key assigns a fresh id. -/
def store_message (db : DB) (chat_id : Int) (message_id : Nat)
    (author : String) (date : PyDateTime) (content : String) (tags : String)
    (importance : MessageImportance) : DB :=
  ⟨db.messages ++
    [⟨db.nextId, chat_id, message_id, author, date.isoformat, content, tags,
      importance.value⟩],
   db.nextId + 1⟩

/-- Ordering relation of ORDER BY id DESC: a precedes b when b.id ≤ a.id. -/
def idGe (a b : Row) : Prop := b.id ≤ a.id

instance : DecidableRel idGe := fun a b => Nat.decLe b.id a.id

instance : IsTotal Row idGe := ⟨fun a b => Nat.le_total b.id a.id⟩

instance : IsTrans Row idGe := ⟨fun _ _ _ hab hbc => Nat.le_trans hbc hab⟩

/-- SQL ORDER BY id DESC over a set of rows, modelled as a sort by the
descending-id relation. -/
def orderByIdDesc (rows : List Row) : List Row :=
  rows.insertionSort idGe

/-- WHERE clause of the first query in get_last_messages
(src/database.py line 90): chat_id=? AND important='Important'. -/
def importantPred (c : Int) (r : Row) : Bool :=
  r.chat_id == c && r.important == "Important"

/-- WHERE clause of the second query in get_last_messages
(src/database.py line 102): chat_id=? AND important IN ('None', 'Gemini'). -/
def normalPred (c : Int) (r : Row) : Bool :=
  r.chat_id == c && (r.important == "None" || r.important == "Gemini")

/-- Result rows of the first query of get_last_messages: all important
messages of the chat, ordered by id descending (src/database.py
lines 86-95). -/
def importantRows (db : DB) (c : Int) : List Row :=
  orderByIdDesc (db.messages.filter (importantPred c))

/-- Ordered eligible rows of the second query of get_last_messages before
LIMIT: normal (None / Gemini) messages of the chat, id descending
(src/database.py lines 98-108). -/
def normalRows (db : DB) (c : Int) : List Row :=
  orderByIdDesc (db.messages.filter (normalPred c))

/-- Row-level result of Database.get_last_messages (src/database.py
lines 81-111): LIMIT-truncated normal messages first, then all important
messages, both newest-first.  The Python default for limit is 120. -/
def get_last_messages_rows (db : DB) (c : Int) (limit : Nat) : List Row :=
  (normalRows db c).take limit ++ importantRows db c

/-- Database.get_last_messages as returned to callers: the projected
tuples (message_id, author, date, content, tags, important). -/
def get_last_messages (db : DB) (c : Int) (limit : Nat) : List ResultRow :=
  (get_last_messages_rows db c limit).map Row.project

/-- Count of rows the chat has in the important tier. -/
def count_important (db : DB) (c : Int) : Nat :=
  (db.messages.filter (importantPred c)).length

/-- Count of rows the chat has in the recent (None / Gemini) tier. -/
def count_recent (db : DB) (c : Int) : Nat :=
  (db.messages.filter (normalPred c)).length

/-- Semantics of executing one SQL SELECT statement against the store: a
SELECT reads the current state and leaves it unchanged. -/
def execSelect (db : DB) (q : DB → List ResultRow) : List ResultRow × DB :=
  (q db, db)

/-- First SELECT of get_last_messages as a query function (important
tier, projected columns). -/
def importantQuery (c : Int) (db : DB) : List ResultRow :=
  (importantRows db c).map Row.project

/-- Second SELECT of get_last_messages as a query function (recent tier
with LIMIT, projected columns). -/
def normalQuery (c : Int) (limit : Nat) (db : DB) : List ResultRow :=
  ((normalRows db c).take limit).map Row.project

/-- Database.get_last_messages with the storage state threaded
explicitly: the method runs exactly two SELECT statements and returns
normal_messages + important_messages (src/database.py lines 81-111). -/
def get_last_messages_op (db : DB) (c : Int) (limit : Nat) :
    List ResultRow × DB :=
  let p1 := execSelect db (importantQuery c)
  let p2 := execSelect p1.2 (normalQuery c limit)
  (p2.1 ++ p1.1, p2.2)

/-- WHERE clause of Database.unpin_message (src/database.py line 171):
id=? AND important='Important'. -/
def unpinHit (dbId : Nat) (r : Row) : Bool :=
  r.id == dbId && r.important == "Important"

/-- Effect of the UPDATE of unpin_message on a single row: rows matching
the WHERE clause get important='None', all other rows and all other
columns are untouched. -/
def unpinUpdate (dbId : Nat) (r : Row) : Row :=
  if unpinHit dbId r then
    ⟨r.id, r.chat_id, r.message_id, r.author, r.date, r.content, r.tags,
      "None"⟩
  else r

/-- Database.unpin_message (src/database.py lines 166-175): UPDATE
messages SET important='None' WHERE id=? AND important='Important',
returning cursor.rowcount > 0. -/
def unpin_message (db : DB) (dbId : Nat) : Bool × DB :=
  (decide (0 < (db.messages.filter (unpinHit dbId)).length),
   ⟨db.messages.map (unpinUpdate dbId), db.nextId⟩)

/-- Storage effect of Bot.mark_important (src/bot.py lines 404-428): the
handler calls Database.store_message with importance=IMPORTANT, inserting
a fresh row. -/
def mark_important_effect (db : DB) (chat_id : Int) (message_id : Nat)
    (author : String) (date : PyDateTime) (content tags : String) : DB :=
  store_message db chat_id message_id author date content tags
    MessageImportance.IMPORTANT

/-- Python str.startswith, used on the AI response by Bot.media_command
(src/bot.py line 369). -/
def strStartsWith (s p : String) : Bool :=
  p.data.isPrefixOf s.data

/-- Result of call_gemini_api for a text request (src/ai_service.py
lines 216-292 with media_paths=None, is_media_request=False): the
transport outcome is either the response text — prefixed with the hat
emoji for the thinking model — or an exception, which is caught and
returned as the literal string "Ошибка при вызове Gemini API: " plus the
exception text (lines 287-292), never rethrown. -/
def call_gemini_api_text (transport : Except String String)
    (thinking : Bool) : String :=
  match transport with
  | Except.ok text => if thinking then "🎩" ++ text else text
  | Except.error e => "Ошибка при вызове Gemini API: " ++ e

/-- Persistence step of Bot.media_command after the AI call (src/bot.py
lines 368-388): when the response starts with "Ошибка" it is only
displayed, not stored; otherwise it is stored with author "Gemini Media
Analysis", tags "media_analysis" and importance GEMINI. -/
def media_command_persist (db : DB) (chat_id : Int)
    (processing_msg_id : Nat) (processing_date : PyDateTime)
    (response : String) : DB :=
  if strStartsWith response "Ошибка" then db
  else
    store_message db chat_id processing_msg_id "Gemini Media Analysis"
      processing_date response "media_analysis" MessageImportance.GEMINI

/-- Storage effect of Bot.process_gemini (src/bot.py lines 430-518): the
original message is stored with importance DEFAULT before the AI call
(lines 447-455); call_gemini_api is invoked (line 496); its result —
error text included, no marker check — is stored with author "Gemini",
empty tags and importance GEMINI (lines 510-518). -/
def process_gemini_effect (db : DB) (chat_id : Int) (message_id : Nat)
    (author : String) (msg_date : PyDateTime) (text tags : String)
    (thinking_message_id : Nat) (thinking_date : PyDateTime)
    (transport : Except String String) (thinking : Bool) : DB :=
  let db1 := store_message db chat_id message_id author msg_date text tags
    MessageImportance.DEFAULT
  let response := call_gemini_api_text transport thinking
  store_message db1 chat_id thinking_message_id "Gemini" thinking_date
    response "" MessageImportance.GEMINI

/-- Context-limit selection of Bot.process_gemini (src/bot.py
lines 466-480) and Bot.test_prompt_command (lines 219-229): the argument
is the numeric value extracted by the regex from a !контекст=N token,
none when the token is absent; the default is 120 and a supplied value
is clamped with min(requested_limit, 3000). -/
def context_limit_of (requested : Option Nat) : Nat :=
  match requested with
  | none => 120
  | some r => min r 3000

/-- Formatting of one record inside the loop of format_chat_history
(src/utils.py lines 65-80): marker for Important, author override for
Gemini, fromisoformat + strftime on the stored date, parenthesized tags
when non-empty, colon, raw content.  An unparsable date makes Python
raise, modelled as none. -/
def formatLine (m : ResultRow) : Option String :=
  let i := if m.important == "Important" then "[СООБЩЕНИЕ ОТМЕЧЕНО ВАЖНЫМ] "
           else ""
  let author := if m.important == "Gemini" then "Gemini" else m.author
  match fromisoformat m.date with
  | none => none
  | some dateObj =>
    let dateFormatted := dateObj.strftimeDisplay
    if m.tags != "" then
      some (i ++ toString m.message_id ++ " " ++ dateFormatted ++ " " ++
        author ++ " (" ++ m.tags ++ "): " ++ m.content)
    else
      some (i ++ toString m.message_id ++ " " ++ dateFormatted ++ " " ++
        author ++ ": " ++ m.content)

/-- Line accumulation of the loop in format_chat_history, in iteration
order (the caller passes the already reversed list). -/
def formatLines : List ResultRow → Option (List String)
  | [] => some []
  | m :: rest =>
    match formatLine m, formatLines rest with
    | some l, some ls => some (l :: ls)
    | _, _ => none

/-- Python "\n".join over the accumulated lines. -/
def joinWith (sep : String) : List String → String
  | [] => ""
  | [x] => x
  | x :: xs => x ++ sep ++ joinWith sep xs

/-- format_chat_history (src/utils.py lines 60-82): iterate over
reversed(messages), render each line, join with newlines. -/
def format_chat_history (messages : List ResultRow) : Option String :=
  (formatLines messages.reverse).map (joinWith "\n")

/-- Combined prompt built by Bot.process_gemini (src/bot.py line 486)
and Bot.test_prompt_command (line 236): history + separator + query. -/
def combined_query (history query : String) : String :=
  history ++ "\n\nТекущий запрос пользователя: " ++ query

/-- Example store: chat 7 holds five messages with ids 1..5, id 2 pinned
Important, the rest Default (the scenario of the ordering property). -/
def exDb2 : DB :=
  ⟨[⟨1, 7, 101, "A", "2024-01-01T00:00:01", "m1", "", "None"⟩,
    ⟨2, 7, 102, "B", "2024-01-01T00:00:02", "m2", "", "Important"⟩,
    ⟨3, 7, 103, "C", "2024-01-01T00:00:03", "m3", "", "None"⟩,
    ⟨4, 7, 104, "D", "2024-01-01T00:00:04", "m4", "", "None"⟩,
    ⟨5, 7, 105, "E", "2024-01-01T00:00:05", "m5", "", "None"⟩],
   6⟩

/-- Example store with a single Default record, plus an example date. -/
def exDb3 : DB :=
  ⟨[⟨1, 7, 10, "A", "2024-01-01T00:00:00", "hello", "", "None"⟩], 2⟩

/-- Example timestamp used by concrete witnesses. -/
def exDate : PyDateTime := ⟨2024, 1, 2, 3, 4, 5⟩

/-- Example empty store with the counter at 1. -/
def exDb0 : DB := ⟨[], 1⟩

/-- Helper: line accumulation distributes over list append when both
halves succeed. -/
theorem formatLines_append {l1 l2 : List ResultRow} {a b : List String}
    (h1 : formatLines l1 = some a) (h2 : formatLines l2 = some b) :
    formatLines (l1 ++ l2) = some (a ++ b) := by
  induction l1 generalizing a with
  | nil =>
    simp only [formatLines] at h1
    cases h1
    simpa using h2
  | cons m rest ih =>
    have step : formatLines ((m :: rest) ++ l2) =
        match formatLine m, formatLines (rest ++ l2) with
        | some l, some ls => some (l :: ls)
        | _, _ => none := rfl
    simp only [formatLines] at h1
    cases hm : formatLine m with
    | none => rw [hm] at h1; simp at h1
    | some l =>
      rw [hm] at h1
      cases hr : formatLines rest with
      | none => rw [hr] at h1; simp at h1
      | some ls =>
        rw [hr] at h1
        simp only [Option.some.injEq] at h1
        rw [step, hm, ih hr]
        simp [← h1]

/-- Helper: a list is a Boolean prefix of itself followed by anything. -/
theorem isPrefixOf_append_self : ∀ (p s : List Char),
    p.isPrefixOf (p ++ s) = true
  | [], s => by simp [List.isPrefixOf]
  | c :: p, s => by
    simp [List.isPrefixOf, isPrefixOf_append_self p s]

/-- Helper: a guarded map whose guard never fires is the identity. -/
theorem map_unpinUpdate_id {l : List Row} {i : Nat}
    (h : ∀ r ∈ l, unpinHit i r = false) :
    l.map (unpinUpdate i) = l := by
  induction l with
  | nil => rfl
  | cons r rest ih =>
    have hr := h r (List.mem_cons_self r rest)
    simp only [List.map_cons, unpinUpdate, hr]
    simp only [Bool.false_eq_true, if_false]
    rw [ih (fun x hx => h x (List.mem_cons_of_mem r hx))]

/-- Helper: pointwise relation between a list and its image under a map. -/
theorem forall₂_map_self {α : Type} (f : α → α) (R : α → α → Prop)
    (h : ∀ a, R a (f a)) : ∀ l : List α, List.Forall₂ R l (l.map f)
  | [] => List.Forall₂.nil
  | a :: l => List.Forall₂.cons (h a) (forall₂_map_self f R h l)

/-- Helper: field-by-field effect of the unpin UPDATE on one row. -/
theorem unpinUpdate_fields (i : Nat) (r : Row) :
    (unpinUpdate i r).id = r.id ∧ (unpinUpdate i r).chat_id = r.chat_id ∧
    (unpinUpdate i r).message_id = r.message_id ∧
    (unpinUpdate i r).author = r.author ∧
    (unpinUpdate i r).date = r.date ∧
    (unpinUpdate i r).content = r.content ∧
    (unpinUpdate i r).tags = r.tags ∧
    ((unpinUpdate i r).important = r.important ∨
      (r.important = "Important" ∧ r.id = i ∧
        (unpinUpdate i r).important = "None")) := by
  by_cases h : unpinHit i r = true
  · have hid : r.id = i := by
      have := h
      simp only [unpinHit, Bool.and_eq_true, beq_iff_eq] at this
      exact this.1
    have himp : r.important = "Important" := by
      have := h
      simp only [unpinHit, Bool.and_eq_true, beq_iff_eq] at this
      exact this.2
    simp [unpinUpdate, h, hid, himp]
  · simp [unpinUpdate, h]

/-- Helper: after the unpin UPDATE for id i, no row with id i is still
Important. -/
theorem unpinUpdate_no_hit (i : Nat) (r : Row) :
    unpinHit i (unpinUpdate i r) = false := by
  have hlit : (("None" : String) == "Important") = false := by decide
  by_cases h : unpinHit i r = true
  · rw [unpinUpdate, if_pos h]
    simp [unpinHit, hlit]
  · rw [unpinUpdate, if_neg h]
    exact Bool.eq_false_iff.mpr h

/-- Helper: the sort used for ORDER BY id DESC yields a descending-id
Pairwise chain, and its reverse an ascending one. -/
theorem sorted_reverse_asc {l : List Row} (h : List.Sorted idGe l) :
    l.reverse.Pairwise (fun a b : Row => a.id ≤ b.id) := by
  rw [List.pairwise_reverse]
  exact h.imp (fun hab => hab)

/-- C1: for every chat C and window size W in [1,3000], retrieve(C, W)
returns first the at-most-W most recent Default/AIResponse records of C
in descending sequence order, then all Important records of C in
descending sequence order; the groups are disjoint and the total size is
min(recent_count, W) + important_count. -/
theorem c1_retrieval_tiering (db : DB) (c : Int) (w : Nat)
    (h1 : 1 ≤ w) (h2 : w ≤ 3000) :
    get_last_messages_rows db c w
      = (normalRows db c).take w ++ importantRows db c
  ∧ ((normalRows db c).take w).length = min (count_recent db c) w
  ∧ (importantRows db c).length = count_important db c
  ∧ (∀ r ∈ (normalRows db c).take w,
      r.chat_id = c ∧ (r.important = "None" ∨ r.important = "Gemini"))
  ∧ (∀ r ∈ importantRows db c, r.chat_id = c ∧ r.important = "Important")
  ∧ List.Sorted idGe ((normalRows db c).take w)
  ∧ List.Sorted idGe (importantRows db c)
  ∧ (∀ r ∈ (normalRows db c).take w, r ∉ importantRows db c)
  ∧ (get_last_messages_rows db c w).length
      = min (count_recent db c) w + count_important db c
  ∧ List.Perm (normalRows db c) (db.messages.filter (normalPred c))
  ∧ List.Perm (importantRows db c) (db.messages.filter (importantPred c))
  ∧ (normalRows db c).take w ++ (normalRows db c).drop w = normalRows db c
  ∧ get_last_messages db c w
      = ((normalRows db c).take w ++ importantRows db c).map Row.project := by
  have hpermN : List.Perm (normalRows db c)
      (db.messages.filter (normalPred c)) := List.perm_insertionSort _ _
  have hpermI : List.Perm (importantRows db c)
      (db.messages.filter (importantPred c)) := List.perm_insertionSort _ _
  have hmemN : ∀ r ∈ (normalRows db c).take w,
      r.chat_id = c ∧ (r.important = "None" ∨ r.important = "Gemini") := by
    intro r hr
    have hr2 : r ∈ normalRows db c := List.take_subset w _ hr
    simp [normalRows, orderByIdDesc, List.mem_filter, normalPred] at hr2
    exact hr2.2
  have hmemI : ∀ r ∈ importantRows db c,
      r.chat_id = c ∧ r.important = "Important" := by
    intro r hr
    simp [importantRows, orderByIdDesc, List.mem_filter, importantPred] at hr
    exact hr.2
  have hlenN : ((normalRows db c).take w).length
      = min (count_recent db c) w := by
    simp [List.length_take, hpermN.length_eq, count_recent, Nat.min_comm]
  have hlenI : (importantRows db c).length = count_important db c :=
    hpermI.length_eq
  have hdisj : ∀ r ∈ (normalRows db c).take w, r ∉ importantRows db c := by
    intro r hrA hrB
    rcases hmemN r hrA with ⟨_, hcase⟩
    rcases hmemI r hrB with ⟨_, himp⟩
    rcases hcase with hn | hg
    · rw [hn] at himp; exact absurd himp (by decide)
    · rw [hg] at himp; exact absurd himp (by decide)
  refine ⟨rfl, hlenN, hlenI, hmemN, hmemI, ?_, ?_, hdisj, ?_, hpermN,
    hpermI, List.take_append_drop w _, rfl⟩
  · exact (List.sorted_insertionSort idGe _).sublist (List.take_sublist w _)
  · exact List.sorted_insertionSort idGe _
  · simp [get_last_messages_rows, List.length_append, hlenN, hlenI]

/-- C1 witness: the tiering size law evaluated on the five-message
example store with window 2. -/
theorem c1_retrieval_tiering_witness :
    (get_last_messages_rows exDb2 7 2).length
      = min (count_recent exDb2 7) 2 + count_important exDb2 7 :=
  (c1_retrieval_tiering exDb2 7 2 (by decide) (by decide)).2.2.2.2.2.2.2.2.1

/-- C10: retrieve(C, 0) succeeds and returns exactly the Important
records of C in descending sequence order, with an empty recent tier. -/
theorem c10_zero_window (db : DB) (c : Int) :
    get_last_messages_rows db c 0 = importantRows db c
  ∧ (normalRows db c).take 0 = []
  ∧ (∀ r ∈ get_last_messages_rows db c 0,
      r.chat_id = c ∧ r.important = "Important")
  ∧ List.Sorted idGe (get_last_messages_rows db c 0)
  ∧ List.Perm (get_last_messages_rows db c 0)
      (db.messages.filter (importantPred c))
  ∧ get_last_messages db c 0 = (importantRows db c).map Row.project := by
  have hmemI : ∀ r ∈ importantRows db c,
      r.chat_id = c ∧ r.important = "Important" := by
    intro r hr
    simp [importantRows, orderByIdDesc, List.mem_filter, importantPred] at hr
    exact hr.2
  refine ⟨rfl, rfl, hmemI, ?_, ?_, rfl⟩
  · exact List.sorted_insertionSort idGe _
  · exact List.perm_insertionSort _ _

/-- C10 witness: the zero-window result on the example store consists of
the pinned record, which belongs to chat 7 and carries the Important
tag. -/
theorem c10_zero_window_witness :
    Row.chat_id ⟨2, 7, 102, "B", "2024-01-01T00:00:02", "m2", "",
        "Important"⟩ = 7
  ∧ Row.important ⟨2, 7, 102, "B", "2024-01-01T00:00:02", "m2", "",
        "Important"⟩ = "Important" :=
  (c10_zero_window exDb2 7).2.2.1 _ (by decide)

/-- C7: retrieve is a pure read: it leaves the storage state unchanged,
returns exactly the get_last_messages value, and two consecutive calls
with no intervening writes return identical output. -/
theorem c7_pure_read (db : DB) (c : Int) (w : Nat) :
    (get_last_messages_op db c w).2 = db
  ∧ (get_last_messages_op db c w).1 = get_last_messages db c w
  ∧ (get_last_messages_op ((get_last_messages_op db c w).2) c w).1
      = (get_last_messages_op db c w).1
  ∧ (get_last_messages_op ((get_last_messages_op db c w).2) c w).2 = db := by
  refine ⟨rfl, ?_, rfl, rfl⟩
  simp [get_last_messages_op, execSelect, normalQuery, importantQuery,
    get_last_messages, get_last_messages_rows, List.map_append]

/-- C5: absent an override token the window size is 120; a supplied
value is clamped with min(value, 3000), so any value above the ceiling
becomes 3000 and retrieve(C, 5000) equals retrieve(C, 3000) on the same
storage state. -/
theorem c5_window_default_and_clamp :
    context_limit_of none = 120
  ∧ (∀ r : Nat, context_limit_of (some r) = min r 3000)
  ∧ (∀ r : Nat, 3000 ≤ r → context_limit_of (some r) = 3000)
  ∧ (∀ (db : DB) (c : Int),
      get_last_messages db c (context_limit_of (some 5000))
        = get_last_messages db c (context_limit_of (some 3000))) := by
  refine ⟨rfl, fun r => rfl, ?_, ?_⟩
  · intro r h
    simp [context_limit_of, Nat.min_eq_right h]
  · intro db c
    have h : context_limit_of (some 5000) = context_limit_of (some 3000) :=
      by decide
    rw [h]

/-- C5 witness: an override of 5000 is clamped to the hard ceiling. -/
theorem c5_window_default_and_clamp_witness :
    context_limit_of (some 5000) = 3000 :=
  c5_window_default_and_clamp.2.2.1 5000 (by decide)

/-- C2: the formatter reverses the retrieval result as a whole, so the
output lines are all Important messages first, then the recent tier,
each group in ascending sequence order, never globally re-sorted; on the
1..5 example with record 2 pinned, retrieve(C, 2) is the recent tier
with ids 5,4 followed by the important tier with id 2, record 2 never
omitted for exceeding the window. -/
theorem c2_formatter_order :
    (∀ (db : DB) (c : Int) (w : Nat) (ls1 ls2 : List String),
      formatLines ((importantRows db c).reverse.map Row.project) = some ls1 →
      formatLines (((normalRows db c).take w).reverse.map Row.project)
        = some ls2 →
      format_chat_history (get_last_messages db c w)
        = some (joinWith "\n" (ls1 ++ ls2)))
  ∧ (∀ (db : DB) (c : Int),
      ((importantRows db c).reverse).Pairwise
        (fun a b : Row => a.id ≤ b.id))
  ∧ (∀ (db : DB) (c : Int) (w : Nat),
      (((normalRows db c).take w).reverse).Pairwise
        (fun a b : Row => a.id ≤ b.id))
  ∧ (get_last_messages_rows exDb2 7 2).map Row.id = [5, 4, 2]
  ∧ ((normalRows exDb2 7).take 2).map Row.id = [5, 4]
  ∧ (importantRows exDb2 7).map Row.id = [2]
  ∧ (2 : Nat) ∈ (get_last_messages_rows exDb2 7 2).map Row.id
  ∧ (get_last_messages_rows exDb2 7 2).reverse.map Row.id = [2, 4, 5] := by
  refine ⟨?_, ?_, ?_, by decide, by decide, by decide, by decide, by decide⟩
  · intro db c w ls1 ls2 hi hn
    have hrev : (get_last_messages db c w).reverse
        = (importantRows db c).reverse.map Row.project
          ++ ((normalRows db c).take w).reverse.map Row.project := by
      simp [get_last_messages, get_last_messages_rows, List.map_append,
        List.reverse_append, List.map_reverse]
    rw [format_chat_history, hrev, formatLines_append hi hn]
    rfl
  · intro db c
    exact sorted_reverse_asc (List.sorted_insertionSort idGe _)
  · intro db c w
    exact sorted_reverse_asc
      ((List.sorted_insertionSort idGe _).sublist (List.take_sublist w _))

/-- C2 witness: the formatted five-message example, window 2 — the
pinned record prints first, then the two most recent records in
chronological order. -/
theorem c2_formatter_order_witness :
    format_chat_history (get_last_messages exDb2 7 2)
      = some ("[СООБЩЕНИЕ ОТМЕЧЕНО ВАЖНЫМ] 102 2024-01-01 00:00:02 B: m2"
          ++ "\n" ++ "104 2024-01-01 00:00:04 D: m4"
          ++ "\n" ++ "105 2024-01-01 00:00:05 E: m5") :=
  c2_formatter_order.1 exDb2 7 2
    ["[СООБЩЕНИЕ ОТМЕЧЕНО ВАЖНЫМ] 102 2024-01-01 00:00:02 B: m2"]
    ["104 2024-01-01 00:00:04 D: m4", "105 2024-01-01 00:00:05 E: m5"]
    (by decide) (by decide)

/-- C8: a record with a parsable stored timestamp renders as exactly one
line: Important marker iff Important, the origin message id, the
timestamp as YYYY-MM-DD HH:MM:SS, the author overridden to the AI name
iff AIResponse, a parenthesized tags suffix iff tags is non-empty, a
colon, the raw content; and formatting is deterministic. -/
theorem c8_line_format (r : ResultRow) (d : PyDateTime)
    (h : fromisoformat r.date = some d) :
    format_chat_history [r] = some (
      (if r.important = "Important" then "[СООБЩЕНИЕ ОТМЕЧЕНО ВАЖНЫМ] "
       else "")
      ++ toString r.message_id ++ " " ++ d.strftimeDisplay ++ " "
      ++ (if r.important = "Gemini" then "Gemini" else r.author)
      ++ (if r.tags = "" then "" else " (" ++ r.tags ++ ")")
      ++ ": " ++ r.content)
  ∧ (∀ ms1 ms2 : List ResultRow, ms1 = ms2 →
      format_chat_history ms1 = format_chat_history ms2) := by
  have hsplit : ∀ s : String, ("): " : String) ++ s = ")" ++ (": " ++ s) :=
    fun s => rfl
  refine ⟨?_, fun _ _ he => congrArg _ he⟩
  have hline : format_chat_history [r] = (formatLine r).map
      (fun l => joinWith "\n" [l]) := by
    rw [format_chat_history]
    cases hf : formatLine r <;> simp [formatLines, hf]
  rw [hline, formatLine, h]
  by_cases hImp : r.important = "Important" <;>
    by_cases hGem : r.important = "Gemini" <;>
    by_cases hTags : r.tags = ""
  · rw [hImp] at hGem; exact absurd hGem (by decide)
  · rw [hImp] at hGem; exact absurd hGem (by decide)
  all_goals
    simp only [hImp, hGem, hTags, beq_iff_eq, bne_iff_ne, ne_eq,
      if_pos, if_neg, not_false_eq_true, not_true_eq_false,
      Option.map_some, joinWith, if_true, if_false, reduceIte]
  all_goals
    simp only [String.append_assoc, hsplit]
  all_goals rfl

/-- C8 witness: the pinned example record renders with the marker, the
formatted timestamp and no tags suffix. -/
theorem c8_line_format_witness :
    format_chat_history
      [⟨102, "B", "2024-01-01T00:00:02", "m2", "", "Important"⟩]
      = some ("[СООБЩЕНИЕ ОТМЕЧЕНО ВАЖНЫМ] " ++ "102" ++ " "
          ++ PyDateTime.strftimeDisplay ⟨2024, 1, 1, 0, 0, 2⟩ ++ " " ++ "B"
          ++ "" ++ ": " ++ "m2") := by
  have h := (c8_line_format
    ⟨102, "B", "2024-01-01T00:00:02", "m2", "", "Important"⟩
    ⟨2024, 1, 1, 0, 0, 2⟩ (by decide)).1
  simpa using h

/-- C9: formatting the empty retrieval result with live query "hello"
yields exactly the fixed trailing separator followed by "hello". -/
theorem c9_empty_history_prompt :
    format_chat_history [] = some ""
  ∧ combined_query "" "hello" = "\n\nТекущий запрос пользователя: hello"
  ∧ (format_chat_history []).map (fun h => combined_query h "hello")
      = some "\n\nТекущий запрос пользователя: hello" :=
  ⟨rfl, rfl, rfl⟩

/-- C6: unpin returns true and flips the record Important to Default iff
a record with that id exists and is Important; otherwise it returns
false and leaves the store unchanged; it never deletes records, changes
no field other than the importance flag, and a second unpin returns
false leaving the state unchanged. -/
theorem c6_unpin (db : DB) (i : Nat) :
    ((unpin_message db i).1 = true ↔
      ∃ r ∈ db.messages, r.id = i ∧ r.important = "Important")
  ∧ ((unpin_message db i).1 = false → (unpin_message db i).2 = db)
  ∧ (unpin_message db i).2.messages.length = db.messages.length
  ∧ (unpin_message db i).2.nextId = db.nextId
  ∧ List.Forall₂ (fun a b : Row =>
      b.id = a.id ∧ b.chat_id = a.chat_id ∧ b.message_id = a.message_id ∧
      b.author = a.author ∧ b.date = a.date ∧ b.content = a.content ∧
      b.tags = a.tags ∧ (b.important = a.important ∨
        (a.important = "Important" ∧ a.id = i ∧ b.important = "None")))
      db.messages (unpin_message db i).2.messages
  ∧ (∀ r ∈ (unpin_message db i).2.messages, unpinHit i r = false)
  ∧ unpin_message (unpin_message db i).2 i
      = (false, (unpin_message db i).2) := by
  have hkey : ∀ r ∈ (unpin_message db i).2.messages, unpinHit i r = false := by
    intro r hr
    simp only [unpin_message, List.mem_map] at hr
    obtain ⟨x, _, rfl⟩ := hr
    exact unpinUpdate_no_hit i x
  have hnil2 : (unpin_message db i).2.messages.filter (unpinHit i) = [] :=
    List.filter_eq_nil_iff.mpr (fun a ha => by simp [hkey a ha])
  refine ⟨?_, ?_, ?_, rfl, ?_, hkey, ?_⟩
  · simp [unpin_message, List.length_pos_iff_exists_mem, List.mem_filter,
      unpinHit]
  · intro hf
    have hnp : ¬ 0 < (db.messages.filter (unpinHit i)).length := by
      simpa [unpin_message] using hf
    have hnil : db.messages.filter (unpinHit i) = [] :=
      List.length_eq_zero.mp (Nat.eq_zero_of_not_pos hnp)
    have hnone : ∀ r ∈ db.messages, unpinHit i r = false := by
      intro r hr
      exact Bool.eq_false_iff.mpr (List.filter_eq_nil_iff.mp hnil r hr)
    obtain ⟨msgs, nid⟩ := db
    simp only [unpin_message]
    rw [map_unpinUpdate_id hnone]
  · simp [unpin_message]
  · exact forall₂_map_self (unpinUpdate i) _ (unpinUpdate_fields i)
      db.messages
  · have hnil2u : (db.messages.map (unpinUpdate i)).filter (unpinHit i)
        = [] := hnil2
    have hmap2u : (db.messages.map (unpinUpdate i)).map (unpinUpdate i)
        = db.messages.map (unpinUpdate i) := map_unpinUpdate_id hkey
    simp only [unpin_message, Prod.mk.injEq]
    constructor
    · simp [hnil2u]
    · rw [hmap2u]

/-- C6 witness: unpinning the sole Default record of the one-record
example store reports failure and leaves the store unchanged. -/
theorem c6_unpin_witness : (unpin_message exDb3 1).2 = exDb3 :=
  (c6_unpin exDb3 1).2.1 (by decide)

/-- C3 counterexample: on a store holding one Default record, the pin
command (Bot.mark_important) grows the messages table instead of
transitioning the existing record, which stays Default — refuting that
pin transitions an existing record without creating a new one. -/
theorem c3_pin_counterexample :
    ¬ ((mark_important_effect exDb3 7 10 "A" exDate "hello" "").messages.length
        = exDb3.messages.length)
  ∧ (mark_important_effect exDb3 7 10 "A" exDate "hello" "").messages.length
      = 2
  ∧ exDb3.messages.length = 1
  ∧ (mark_important_effect exDb3 7 10 "A" exDate "hello" "").messages.map
      Row.important = ["None", "Important"] := by decide

/-- C3 amended: the pin command appends a fresh record with importance
Important, leaving every existing record (and its importance) unchanged
and reporting no success or failure; the only in-place importance
transition the store performs is Important to Default via unpin. -/
theorem c3_pin_appends (db : DB) (c : Int) (mid : Nat) (a : String)
    (d : PyDateTime) (ct tg : String) :
    (mark_important_effect db c mid a d ct tg).messages
      = db.messages
        ++ [⟨db.nextId, c, mid, a, d.isoformat, ct, tg, "Important"⟩]
  ∧ (mark_important_effect db c mid a d ct tg).messages.take
      db.messages.length = db.messages
  ∧ (mark_important_effect db c mid a d ct tg).messages.length
      = db.messages.length + 1
  ∧ (∀ r ∈ db.messages,
      r ∈ (mark_important_effect db c mid a d ct tg).messages)
  ∧ (∀ (db2 : DB) (j : Nat), List.Forall₂ (fun x y : Row =>
      y.important = x.important ∨
        (x.important = "Important" ∧ y.important = "None"))
      db2.messages (unpin_message db2 j).2.messages) := by
  refine ⟨rfl, ?_, by simp [mark_important_effect, store_message], ?_, ?_⟩
  · exact List.take_left _ _
  · intro r hr
    exact List.mem_append_left _ hr
  · intro db2 j
    refine forall₂_map_self (unpinUpdate j) _ (fun x => ?_) db2.messages
    rcases (unpinUpdate_fields j x).2.2.2.2.2.2.2 with h | h
    · exact Or.inl h
    · exact Or.inr ⟨h.1, h.2.2⟩

/-- C3 amended witness: the pre-existing Default record survives the pin
command untouched inside the grown table. -/
theorem c3_pin_appends_witness :
    (⟨1, 7, 10, "A", "2024-01-01T00:00:00", "hello", "", "None"⟩ : Row)
      ∈ (mark_important_effect exDb3 7 10 "A" exDate "x" "y").messages :=
  (c3_pin_appends exDb3 7 10 "A" exDate "x" "y").2.2.2.1 _ (by decide)

/-- C4 counterexample: with a failing transport, process_gemini stores
the marker-prefixed error text as a Gemini-tagged reply — refuting that
the orchestrator skips persisting a failed reply (the original user
message is stored too, first). -/
theorem c4_error_reply_persisted_counterexample :
    (process_gemini_effect exDb0 7 11 "U" exDate "гемини, hi" "" 12 exDate
        (Except.error "boom") false).messages.map
      (fun r => (r.content, r.important))
      = [("гемини, hi", "None"),
         ("Ошибка при вызове Gemini API: boom", "Gemini")]
  ∧ strStartsWith "Ошибка при вызове Gemini API: boom" "Ошибка" = true
  ∧ "Ошибка при вызове Gemini API: boom"
      ∈ (process_gemini_effect exDb0 7 11 "U" exDate "гемини, hi" "" 12
          exDate (Except.error "boom") false).messages.map Row.content := by
  decide

/-- C4 amended: a transport failure is returned as literal text prefixed
with the error marker rather than thrown; the media orchestrator detects
the marker and skips persisting, and stores marker-free responses; the
text orchestrator persists the original user message and then the AI
reply unconditionally, independent of the AI outcome. -/
theorem c4_error_marker_and_persistence :
    (∀ (e : String) (th : Bool),
      call_gemini_api_text (Except.error e) th
        = "Ошибка при вызове Gemini API: " ++ e
      ∧ (∃ rest, call_gemini_api_text (Except.error e) th = "Ошибка" ++ rest)
      ∧ strStartsWith (call_gemini_api_text (Except.error e) th) "Ошибка"
          = true)
  ∧ (∀ (db : DB) (c : Int) (pid : Nat) (d : PyDateTime) (resp : String),
      strStartsWith resp "Ошибка" = true →
      media_command_persist db c pid d resp = db)
  ∧ (∀ (db : DB) (c : Int) (pid : Nat) (d : PyDateTime) (resp : String),
      strStartsWith resp "Ошибка" = false →
      media_command_persist db c pid d resp
        = store_message db c pid "Gemini Media Analysis" d resp
            "media_analysis" MessageImportance.GEMINI)
  ∧ (∀ (db : DB) (c : Int) (mid : Nat) (a : String) (md : PyDateTime)
      (t tg : String) (tid : Nat) (td : PyDateTime)
      (tr : Except String String) (th : Bool),
      (process_gemini_effect db c mid a md t tg tid td tr th).messages
        = db.messages
          ++ [⟨db.nextId, c, mid, a, md.isoformat, t, tg, "None"⟩]
          ++ [⟨db.nextId + 1, c, tid, "Gemini", td.isoformat,
              call_gemini_api_text tr th, "", "Gemini"⟩]) := by
  refine ⟨?_, ?_, ?_, ?_⟩
  · intro e th
    refine ⟨rfl, ⟨" при вызове Gemini API: " ++ e, rfl⟩, ?_⟩
    show ("Ошибка".data).isPrefixOf
      (("Ошибка при вызове Gemini API: " ++ e).data) = true
    have hdata : ("Ошибка при вызове Gemini API: " ++ e).data
        = "Ошибка".data ++ (" при вызове Gemini API: ".data ++ e.data) := by
      rw [String.data_append,
        show ("Ошибка при вызове Gemini API: ").data
          = "Ошибка".data ++ (" при вызове Gemini API: ").data from rfl,
        List.append_assoc]
    rw [hdata]
    exact isPrefixOf_append_self _ _
  · intro db c pid d resp h
    simp [media_command_persist, h]
  · intro db c pid d resp h
    simp [media_command_persist, h]
  · intro db c mid a md t tg tid td tr th
    rfl

/-- C4 amended witness: a marker-prefixed response is not persisted by
the media orchestrator. -/
theorem c4_error_marker_and_persistence_witness :
    media_command_persist exDb0 7 1 exDate "Ошибка X" = exDb0 :=
  c4_error_marker_and_persistence.2.1 exDb0 7 1 exDate "Ошибка X"
    (by decide)

end Buisbot
